import Mathlib

/-!
Verification of the live-signal pipeline of the basketball betting monitor:
pace math and trigger rules (monitor.analyze_game), end-of-game outcome
resolution (monitor._handle_game_end and backfill_results.calculate_outcome),
the retroactive threshold analyzer (ppm_analyzer._analyze_bucket) and the
confidence scorer (confidence_scorer.ConfidenceScorer).

Python floats are embedded as rationals; dictionaries with per-key defaults
are embedded as structures of optional fields with explicit accessors; a
falsy (absent or empty) dictionary argument is embedded as an Option that
is none.
-/

namespace Testsite

/-- Bet side of an over/under wager ("over" / "under" strings in the source). -/
inductive Side where
  | over
  | under
  deriving DecidableEq, Repr

/-- Sport mode from config.SPORT_MODE: "nba" or "ncaa". -/
inductive SportMode where
  | nba
  | ncaa
  deriving DecidableEq, Repr

/-- config.PPM_THRESHOLD_UNDER (default 3.0). -/
def PPM_THRESHOLD_UNDER : ℚ := 3

/-- config.PPM_THRESHOLD_OVER (default 3.0). -/
def PPM_THRESHOLD_OVER : ℚ := 3

/-- config.PPM_DIFFERENCE_THRESHOLD (default 0.5). -/
def PPM_DIFFERENCE_THRESHOLD : ℚ := 1/2

/-- Regulation length: 48 minutes for NBA, 40 for NCAA. -/
def totalGameMinutes : SportMode → ℚ
  | .nba => 48
  | .ncaa => 40

/-- Clock remaining in the current period:
time_remaining_minutes + time_remaining_seconds / 60. -/
def clockRemaining (m s : ℕ) : ℚ := (m : ℚ) + (s : ℚ) / 60

/-- monitor.analyze_game lines 479-504: total_time_remaining, period aware.
Overtime periods (NBA period ≥ 5, NCAA period ≥ 3) count only the clock
remaining in the current period. -/
def totalTimeRemaining (mode : SportMode) (period m s : ℕ) : ℚ :=
  match mode with
  | .nba =>
      if period ≥ 5 then clockRemaining m s
      else if period = 4 then clockRemaining m s
      else if period = 3 then 12 + clockRemaining m s
      else if period = 2 then 24 + clockRemaining m s
      else if period = 1 then 36 + clockRemaining m s
      else 48
  | .ncaa =>
      if period ≥ 3 then clockRemaining m s
      else if period = 2 then clockRemaining m s
      else if period = 1 then 20 + clockRemaining m s
      else 40

/-- monitor.analyze_game lines 517-518:
required_ppm = (ou_line - total_points) / total_time_remaining when the
remaining time is positive, else 0. -/
def requiredPPM (ouLine totalPoints rem : ℚ) : ℚ :=
  if rem > 0 then (ouLine - totalPoints) / rem else 0

/-- monitor.analyze_game line 521:
minutes_elapsed = (48 if nba else 40) - total_time_remaining. -/
def minutesElapsed (mode : SportMode) (rem : ℚ) : ℚ := totalGameMinutes mode - rem

/-- monitor.analyze_game line 522:
current_ppm = total_points / minutes_elapsed when positive, else 0. -/
def currentPPM (totalPoints elapsed : ℚ) : ℚ :=
  if elapsed > 0 then totalPoints / elapsed else 0

/-- Tag of one entry of the trigger_reasons list (the formatted text of the
reason string is not modelled, only which rule produced it). -/
inductive TriggerReason where
  | requiredPpmUnder
  | requiredPpmOver
  | ppmDiff
  deriving DecidableEq, Repr

/-- TriggerDecision: bet_type, trigger_flag, trigger_reasons. -/
structure TriggerDecision where
  betType : Option Side
  triggered : Bool
  reasons : List TriggerReason
  deriving DecidableEq, Repr

/-- monitor.analyze_game lines 542-552, Trigger 1 (required PPM thresholds):
strict comparison against each threshold, under branch first. -/
def rule1 (thresholdUnder thresholdOver required : ℚ) : TriggerDecision :=
  if required > thresholdUnder then
    ⟨some Side.under, true, [TriggerReason.requiredPpmUnder]⟩
  else if required < thresholdOver then
    ⟨some Side.over, true, [TriggerReason.requiredPpmOver]⟩
  else
    ⟨none, false, []⟩

/-- monitor.analyze_game lines 554-567, Trigger 2 (pace mismatch): fires when
|current_ppm - required_ppm| exceeds the threshold, appends a reason, and
fills in bet_type from the sign of the difference when still unset. -/
def rule2 (thresholdDiff required current : ℚ) (d : TriggerDecision) : TriggerDecision :=
  let ppmDifference := current - required
  if |ppmDifference| > thresholdDiff then
    { betType :=
        match d.betType with
        | some b => some b
        | none => if ppmDifference > 0 then some Side.over else some Side.under
      triggered := true
      reasons := d.reasons ++ [TriggerReason.ppmDiff] }
  else d

/-- The trigger evaluation of monitor.analyze_game: rule 1 then rule 2. -/
def evaluateTrigger (thresholdUnder thresholdOver thresholdDiff required current : ℚ) :
    TriggerDecision :=
  rule2 thresholdDiff required current (rule1 thresholdUnder thresholdOver required)

/-- Over/under result of a final total versus the line. -/
inductive OUResult where
  | over
  | under
  | push
  deriving DecidableEq, Repr

/-- The string stored in the ou_result column for each result. -/
def ouResultName : OUResult → String
  | .over => "over"
  | .under => "under"
  | .push => "push"

/-- monitor._handle_game_end lines 767-773 and
backfill_results.calculate_outcome lines 100-106: classify the final total
against the line. -/
def ouResultOf (finalTotal line : ℚ) : OUResult :=
  if finalTotal > line then OUResult.over
  else if finalTotal < line then OUResult.under
  else OUResult.push

/-- Outcome of a recorded trigger: win / loss / push, or na for the empty
outcome string when no trigger fired. -/
inductive Outcome where
  | win
  | loss
  | push
  | na
  deriving DecidableEq, Repr

/-- monitor._handle_game_end lines 779-793: outcome and unit_profit. The
branch ignores the recorded bet side: every trigger is settled as an under
bet (win when ou_result is under, loss when over). -/
def monitorOutcome (ouRes : OUResult) (ourTrigger : Bool) (maxUnits : ℚ) : Outcome × ℚ :=
  if ourTrigger then
    match ouRes with
    | OUResult.under => (Outcome.win, maxUnits)
    | OUResult.over => (Outcome.loss, -maxUnits)
    | OUResult.push => (Outcome.push, 0)
  else (Outcome.na, 0)

/-- monitor._handle_game_end lines 764-793, the classification and settling
portion. ou_line is re-fetched and may be absent; the source compares
final_total > ou_line without a guard, which on a missing (None) line is a
TypeError, embedded as an error value. -/
def monitorHandleGameEnd (ouLine : Option ℚ) (finalTotal : ℚ) (ourTrigger : Bool)
    (maxUnits : ℚ) : Except Unit (OUResult × Outcome × ℚ) :=
  match ouLine with
  | none => Except.error ()
  | some l =>
      let r := ouResultOf finalTotal l
      let o := monitorOutcome r ourTrigger maxUnits
      Except.ok (r, o.1, o.2)

/-- Python str.lower as applied to the stored bet_type values (ASCII team
bet-side strings), character by character. -/
def strToLower (s : String) : String := ⟨s.data.map Char.toLower⟩

/-- One row of the backfill output that the claims are about: ou_result,
outcome and unit_profit. -/
structure BackfillOutcome where
  ouResult : OUResult
  outcome : Outcome
  unitProfit : ℚ
  deriving DecidableEq, Repr

/-- backfill_results.calculate_outcome lines 92-123. finalData carries the
fetched (home_score, away_score); the stored line is None when the CSV cell
was empty. The guard `not final_data or not game[..]` returns None when the
final data is missing or the line is null or zero; otherwise the outcome is
settled from the recorded bet_type (lower-cased) against ou_result. -/
def calculate_outcome (finalData : Option (ℚ × ℚ)) (ouLine : Option ℚ)
    (triggered : Bool) (betType : String) (maxUnits : ℚ) : Option BackfillOutcome :=
  match finalData, ouLine with
  | some (homeScore, awayScore), some l =>
      if l = 0 then none
      else
        let finalTotal := homeScore + awayScore
        let r := ouResultOf finalTotal l
        if triggered then
          if strToLower betType = ouResultName r then some ⟨r, Outcome.win, maxUnits⟩
          else if r = OUResult.push then some ⟨r, Outcome.push, 0⟩
          else some ⟨r, Outcome.loss, -maxUnits⟩
        else some ⟨r, Outcome.na, 0⟩
  | _, _ => none

/-- ppm_analyzer._analyze_bucket lines 87-93: whether a recorded poll would
have triggered at a candidate threshold, from its recorded bet_type (already
lower-cased at read time) and required_ppm. Non-strict comparisons. -/
def analyzerWouldTrigger (betType : String) (required threshold : ℚ) : Bool :=
  if strToLower betType = "under" ∧ required ≥ threshold then true
  else if strToLower betType = "over" ∧ required ≤ threshold then true
  else false

/-- The side-specific half of Rule 1 applied retroactively at threshold T,
written from the wording of spec sections 4.2 and 4.5: strict inequalities,
so required PPM exactly at the threshold counts for neither side. This
definition follows the spec text and is compared against
analyzerWouldTrigger, which follows the source. -/
def specRule1Retro (betType : String) (required threshold : ℚ) : Bool :=
  if strToLower betType = "under" ∧ required > threshold then true
  else if strToLower betType = "over" ∧ required < threshold then true
  else false

/-- Season metrics dictionary of one team, as read by the confidence scorer:
one optional field per key it looks up (a key absent from the dictionary is
none; the scorer substitutes its per-call default). -/
structure TeamMetrics where
  pace_per_game : Option ℚ := none
  pace : Option ℚ := none
  three_p_rate : Option ℚ := none
  three_p_pct : Option ℚ := none
  ft_rate : Option ℚ := none
  to_rate : Option ℚ := none
  def_efficiency : Option ℚ := none
  efg_pct : Option ℚ := none
  deriving DecidableEq, Repr

/-- Live in-game statistics dictionary of one team, keys the scorer reads. -/
structure LiveStats where
  fg_pct : Option ℚ := none
  fg_attempted : Option ℚ := none
  ft_attempted : Option ℚ := none
  turnovers : Option ℚ := none
  rebounds_offensive : Option ℚ := none
  rebounds_total : Option ℚ := none
  deriving DecidableEq, Repr

/-- The weights table of config.CONFIDENCE_WEIGHTS (self.weights). -/
structure Weights where
  slow_pace_threshold : ℚ
  fast_pace_threshold : ℚ
  slow_pace_bonus : ℚ
  medium_pace_bonus : ℚ
  fast_pace_penalty : ℚ
  low_3p_rate_threshold : ℚ
  high_3p_pct_threshold : ℚ
  low_3p_rate_bonus : ℚ
  high_3p_pct_penalty : ℚ
  low_ft_rate_threshold : ℚ
  high_ft_rate_threshold : ℚ
  low_ft_rate_bonus : ℚ
  high_ft_rate_penalty : ℚ
  high_to_rate_threshold : ℚ
  high_to_rate_bonus : ℚ
  strong_defense_threshold : ℚ
  strong_defense_bonus : ℚ
  both_slow_bonus : ℚ
  both_strong_defense_bonus : ℚ
  pace_mismatch_penalty : ℚ
  deriving DecidableEq, Repr

/-- config.CONFIDENCE_WEIGHTS default values. -/
def CONFIDENCE_WEIGHTS : Weights where
  slow_pace_threshold := 67
  fast_pace_threshold := 72
  slow_pace_bonus := 7
  medium_pace_bonus := 3
  fast_pace_penalty := -6
  low_3p_rate_threshold := 3/10
  high_3p_pct_threshold := 38/100
  low_3p_rate_bonus := 5
  high_3p_pct_penalty := -5
  low_ft_rate_threshold := 18
  high_ft_rate_threshold := 24
  low_ft_rate_bonus := 4
  high_ft_rate_penalty := -6
  high_to_rate_threshold := 14
  high_to_rate_bonus := 3
  strong_defense_threshold := 95
  strong_defense_bonus := 6
  both_slow_bonus := 9
  both_strong_defense_bonus := 6
  pace_mismatch_penalty := -5

/-- config.UNIT_SIZES bands (lo, hi), inclusive at both ends. -/
def UNIT_SIZES_no_bet : ℚ × ℚ := (0, 40)

/-- config.UNIT_SIZES low band: 0.5 units. -/
def UNIT_SIZES_low : ℚ × ℚ := (41, 60)

/-- config.UNIT_SIZES medium band: 1 unit. -/
def UNIT_SIZES_medium : ℚ × ℚ := (61, 75)

/-- config.UNIT_SIZES high band: 2 units. -/
def UNIT_SIZES_high : ℚ × ℚ := (76, 85)

/-- config.UNIT_SIZES max band: 3 units. -/
def UNIT_SIZES_max : ℚ × ℚ := (86, 100)

/-- confidence_scorer._get_unit_recommendation lines 439-454: first matching
inclusive band wins; a confidence in no band falls through to 0. -/
def _get_unit_recommendation (confidence : ℚ) : ℚ :=
  if UNIT_SIZES_no_bet.1 ≤ confidence ∧ confidence ≤ UNIT_SIZES_no_bet.2 then 0
  else if UNIT_SIZES_low.1 ≤ confidence ∧ confidence ≤ UNIT_SIZES_low.2 then 1/2
  else if UNIT_SIZES_medium.1 ≤ confidence ∧ confidence ≤ UNIT_SIZES_medium.2 then 1
  else if UNIT_SIZES_high.1 ≤ confidence ∧ confidence ≤ UNIT_SIZES_high.2 then 2
  else if UNIT_SIZES_max.1 ≤ confidence ∧ confidence ≤ UNIT_SIZES_max.2 then 3
  else 0

/-- Pace lookup home.get("pace_per_game", home.get("pace", 70)). -/
def getPace (m : TeamMetrics) : ℚ := m.pace_per_game.getD (m.pace.getD 70)

/-- Three-point percentage lookup with unit normalization:
get("three_p_pct", 35) / 100 when the raw value exceeds 1, else
get("three_p_pct", 0.35). -/
def getThreePPct (m : TeamMetrics) : ℚ :=
  if m.three_p_pct.getD 35 > 1 then m.three_p_pct.getD 35 / 100
  else m.three_p_pct.getD (35/100)

/-- confidence_scorer._evaluate_pace lines 186-220 (numeric score; the detail
strings are not modelled). -/
def _evaluate_pace (w : Weights) (home away : TeamMetrics) : ℚ :=
  let homeScore :=
    if getPace home < w.slow_pace_threshold then w.slow_pace_bonus
    else if getPace home > w.fast_pace_threshold then w.fast_pace_penalty
    else w.medium_pace_bonus
  let awayScore :=
    if getPace away < w.slow_pace_threshold then w.slow_pace_bonus
    else if getPace away > w.fast_pace_threshold then w.fast_pace_penalty
    else w.medium_pace_bonus
  homeScore + awayScore

/-- confidence_scorer._evaluate_three_point lines 222-252. -/
def _evaluate_three_point (w : Weights) (home away : TeamMetrics) : ℚ :=
  let homeRate := if home.three_p_rate.getD (35/100) < w.low_3p_rate_threshold
    then w.low_3p_rate_bonus else 0
  let homePct := if getThreePPct home > w.high_3p_pct_threshold
    then w.high_3p_pct_penalty else 0
  let awayRate := if away.three_p_rate.getD (35/100) < w.low_3p_rate_threshold
    then w.low_3p_rate_bonus else 0
  let awayPct := if getThreePPct away > w.high_3p_pct_threshold
    then w.high_3p_pct_penalty else 0
  homeRate + homePct + awayRate + awayPct

/-- confidence_scorer._evaluate_free_throws lines 254-279. -/
def _evaluate_free_throws (w : Weights) (home away : TeamMetrics) : ℚ :=
  let homeScore :=
    if home.ft_rate.getD 20 < w.low_ft_rate_threshold then w.low_ft_rate_bonus
    else if home.ft_rate.getD 20 > w.high_ft_rate_threshold then w.high_ft_rate_penalty
    else 0
  let awayScore :=
    if away.ft_rate.getD 20 < w.low_ft_rate_threshold then w.low_ft_rate_bonus
    else if away.ft_rate.getD 20 > w.high_ft_rate_threshold then w.high_ft_rate_penalty
    else 0
  homeScore + awayScore

/-- confidence_scorer._evaluate_turnovers lines 281-298. -/
def _evaluate_turnovers (w : Weights) (home away : TeamMetrics) : ℚ :=
  let homeScore := if home.to_rate.getD 12 > w.high_to_rate_threshold
    then w.high_to_rate_bonus else 0
  let awayScore := if away.to_rate.getD 12 > w.high_to_rate_threshold
    then w.high_to_rate_bonus else 0
  homeScore + awayScore

/-- confidence_scorer._evaluate_defense lines 300-317. -/
def _evaluate_defense (w : Weights) (home away : TeamMetrics) : ℚ :=
  let homeScore := if home.def_efficiency.getD 100 < w.strong_defense_threshold
    then w.strong_defense_bonus else 0
  let awayScore := if away.def_efficiency.getD 100 < w.strong_defense_threshold
    then w.strong_defense_bonus else 0
  homeScore + awayScore

/-- confidence_scorer._evaluate_fouls lines 319-351: neutral when either foul
count is absent, else bucketed on the combined count. -/
def _evaluate_fouls (homeFouls awayFouls : Option ℤ) : ℚ :=
  match homeFouls, awayFouls with
  | some hf, some af =>
      let totalFouls := hf + af
      if totalFouls > 20 then 8
      else if totalFouls > 15 then 5
      else if totalFouls < 8 then -3
      else 0
  | _, _ => 0

/-- confidence_scorer._evaluate_matchup lines 353-384. -/
def _evaluate_matchup (w : Weights) (home away : TeamMetrics) : ℚ :=
  let homePace := getPace home
  let awayPace := getPace away
  let homeDef := home.def_efficiency.getD 100
  let awayDef := away.def_efficiency.getD 100
  let bothSlow := if homePace < w.slow_pace_threshold ∧ awayPace < w.slow_pace_threshold
    then w.both_slow_bonus else 0
  let bothStrongDef :=
    if homeDef < w.strong_defense_threshold ∧ awayDef < w.strong_defense_threshold
    then w.both_strong_defense_bonus else 0
  let paceMismatch :=
    if (homePace < w.slow_pace_threshold ∧ awayPace > w.fast_pace_threshold) ∨
       (awayPace < w.slow_pace_threshold ∧ homePace > w.fast_pace_threshold)
    then w.pace_mismatch_penalty else 0
  bothSlow + bothStrongDef + paceMismatch

/-- confidence_scorer._evaluate_ppm_severity lines 386-409 (under bets). -/
def _evaluate_ppm_severity (required_ppm : ℚ) : ℚ :=
  if required_ppm > 6 then 12
  else if required_ppm > 11/2 then 8
  else if required_ppm > 5 then 4
  else if required_ppm > 9/2 then 0
  else if required_ppm > 7/2 then -4
  else if required_ppm > 5/2 then -8
  else if required_ppm > 2 then -10
  else -12

/-- confidence_scorer._evaluate_over_pace lines 411-437 (over bets). -/
def _evaluate_over_pace (required_ppm current_ppm : ℚ) : ℚ :=
  let base :=
    if required_ppm < 1/2 then 15
    else if required_ppm < 1 then 10
    else if required_ppm < 3/2 then 5
    else 0
  let ratioBonus :=
    if current_ppm > 0 ∧ required_ppm > 0 then
      let pace_ratio := current_ppm / required_ppm
      if pace_ratio > 2 then 10
      else if pace_ratio > 3/2 then 5
      else 0
    else 0
  base + ratioBonus

/-- confidence_scorer._evaluate_live_shooting lines 456-511. The season
metrics are the non-empty dictionaries already past the missing-data check,
so the Python truthiness guard on them always passes here. -/
def _evaluate_live_shooting (home away : TeamMetrics)
    (homeLive awayLive : Option LiveStats) : ℚ :=
  match homeLive, awayLive with
  | none, none => 0
  | _, _ =>
      let homeVariance : List ℚ :=
        match homeLive with
        | some hl =>
            let liveFg := hl.fg_pct.getD 0
            let seasonEfg := home.efg_pct.getD 0
            if liveFg > 0 ∧ seasonEfg > 0 then [liveFg - seasonEfg] else []
        | none => []
      let awayVariance : List ℚ :=
        match awayLive with
        | some al =>
            let liveFg := al.fg_pct.getD 0
            let seasonEfg := away.efg_pct.getD 0
            if liveFg > 0 ∧ seasonEfg > 0 then [liveFg - seasonEfg] else []
        | none => []
      let shooting_variance := homeVariance ++ awayVariance
      if shooting_variance.length = 0 then 0
      else
        let avg_variance := shooting_variance.sum / (shooting_variance.length : ℚ)
        if avg_variance > 5 then -8
        else if avg_variance < -5 then 8
        else if avg_variance > 2 then -4
        else if avg_variance < -2 then 4
        else 0

/-- confidence_scorer._evaluate_live_ft_impact lines 513-550. -/
def _evaluate_live_ft_impact (homeLive awayLive : Option LiveStats) : ℚ :=
  match homeLive, awayLive with
  | none, none => 0
  | _, _ =>
      let total_ft_attempts :=
        (homeLive.map (fun l => l.ft_attempted.getD 0)).getD 0 +
        (awayLive.map (fun l => l.ft_attempted.getD 0)).getD 0
      if total_ft_attempts > 20 then 6
      else if total_ft_attempts > 15 then 4
      else if total_ft_attempts > 10 then 2
      else -2

/-- confidence_scorer._evaluate_live_turnovers lines 552-603. -/
def _evaluate_live_turnovers (homeLive awayLive : Option LiveStats) : ℚ :=
  match homeLive, awayLive with
  | none, none => 0
  | _, _ =>
      let total_turnovers :=
        (homeLive.map (fun l => l.turnovers.getD 0)).getD 0 +
        (awayLive.map (fun l => l.turnovers.getD 0)).getD 0
      let total_fg_attempts :=
        (homeLive.map (fun l => l.fg_attempted.getD 0)).getD 0 +
        (awayLive.map (fun l => l.fg_attempted.getD 0)).getD 0
      if total_fg_attempts > 0 then
        let to_rate := total_turnovers / (total_fg_attempts / 10)
        if to_rate > 2 then 5
        else if to_rate > 3/2 then 3
        else if to_rate < 1 then -3
        else 0
      else
        if total_turnovers > 15 then 4
        else if total_turnovers < 8 then -2
        else 0

/-- confidence_scorer._evaluate_live_rebounding lines 605-648. -/
def _evaluate_live_rebounding (homeLive awayLive : Option LiveStats) : ℚ :=
  match homeLive, awayLive with
  | none, none => 0
  | _, _ =>
      let total_off_rebounds :=
        (homeLive.map (fun l => l.rebounds_offensive.getD 0)).getD 0 +
        (awayLive.map (fun l => l.rebounds_offensive.getD 0)).getD 0
      let total_rebounds :=
        (homeLive.map (fun l => l.rebounds_total.getD 0)).getD 0 +
        (awayLive.map (fun l => l.rebounds_total.getD 0)).getD 0
      if total_rebounds > 0 then
        let off_reb_pct := total_off_rebounds / total_rebounds * 100
        if off_reb_pct > 35 then -4
        else if off_reb_pct > 30 then -2
        else if off_reb_pct < 20 then 2
        else 0
      else 0

/-- Breakdown output of the scorer: either the missing-data error entry or
the per-factor numeric entries (detail strings not modelled). -/
inductive Breakdown where
  | missing (msg : String)
  | factors (entries : List (String × ℚ))
  deriving DecidableEq, Repr

/-- ConfidenceResult: the dictionary returned by calculate_confidence. -/
structure ConfidenceResult where
  confidence : ℚ
  unit_recommendation : ℚ
  breakdown : Breakdown
  deriving DecidableEq, Repr

/-- Polarity multiplier of calculate_confidence line 65:
-1 when bet_type == "over", else 1. -/
def scoreMultiplier (betType : Option Side) : ℚ :=
  if betType = some Side.over then -1 else 1

/-- confidence_scorer.calculate_confidence lines 26-184. A falsy (missing or
empty) metrics dictionary is none and short-circuits to the degraded output;
otherwise every factor contribution is accumulated (each multiplied by the
polarity multiplier except the already side-aware PPM term), the live-stats
factors only when at least one live-stats dictionary is present, and the
final score is clamped to [0, 100]. -/
def calculate_confidence (w : Weights) (home_metrics away_metrics : Option TeamMetrics)
    (required_ppm : ℚ) (current_total : ℚ) (ou_line : ℚ)
    (bet_type : Option Side) (current_ppm : ℚ)
    (home_fouls away_fouls : Option ℤ)
    (home_live_stats away_live_stats : Option LiveStats) : ConfidenceResult :=
  let multiplier := scoreMultiplier bet_type
  match home_metrics, away_metrics with
  | some home, some away =>
      let pace_score := _evaluate_pace w home away
      let three_score := _evaluate_three_point w home away
      let ft_score := _evaluate_free_throws w home away
      let to_score := _evaluate_turnovers w home away
      let def_score := _evaluate_defense w home away
      let foul_score := _evaluate_fouls home_fouls away_fouls
      let matchup_score := _evaluate_matchup w home away
      let ppm_score :=
        if bet_type = some Side.over then _evaluate_over_pace required_ppm current_ppm
        else _evaluate_ppm_severity required_ppm
      let live_score :=
        match home_live_stats, away_live_stats with
        | none, none => 0
        | _, _ =>
            _evaluate_live_shooting home away home_live_stats away_live_stats * multiplier +
            _evaluate_live_ft_impact home_live_stats away_live_stats * multiplier +
            _evaluate_live_turnovers home_live_stats away_live_stats * multiplier +
            _evaluate_live_rebounding home_live_stats away_live_stats * multiplier
      let score := 50 + pace_score * multiplier + three_score * multiplier +
        ft_score * multiplier + to_score * multiplier + def_score * multiplier +
        foul_score * multiplier + matchup_score * multiplier + ppm_score + live_score
      let final_score := max 0 (min 100 score)
      { confidence := final_score
        unit_recommendation := _get_unit_recommendation final_score
        breakdown := Breakdown.factors
          [("base", 50), ("pace", pace_score), ("three_point", three_score),
           ("free_throw", ft_score), ("turnover", to_score), ("defense", def_score),
           ("fouls", foul_score), ("matchup", matchup_score),
           ("ppm_severity", ppm_score), ("live", live_score),
           ("total_score", score), ("final_score", final_score)] }
  | _, _ =>
      { confidence := 0
        unit_recommendation := 0
        breakdown := Breakdown.missing "Missing team data" }

/-- Clamping to [0, 100] in the scorer's final step. -/
theorem clamp_mem (s : ℚ) : 0 ≤ max 0 (min 100 s) ∧ max 0 (min 100 s) ≤ 100 :=
  ⟨le_max_left 0 _, max_le (by norm_num) (min_le_left 100 s)⟩

/-- C1: the claim says outcome resolution consults the recorded bet side, so a
triggered over bet on a game finishing below the line resolves to loss. The
live monitor's end-of-game settlement ignores the side: at the failing input
(recorded over trigger, line 145.5, final total 130, 2 units) it returns win
with +2 units, while the repository's side-consulting backfill resolver
returns loss with -2 units on the same game. -/
theorem C1_monitor_ignores_bet_side :
    monitorHandleGameEnd (some (291/2)) 130 true 2 =
      Except.ok (OUResult.under, Outcome.win, 2) ∧
    calculate_outcome (some (60, 70)) (some (291/2)) true "over" 2 =
      some ⟨OUResult.under, Outcome.loss, -2⟩ := by
  constructor
  · norm_num [monitorHandleGameEnd, ouResultOf, monitorOutcome]
  · have hov : strToLower "over" = "over" := rfl
    norm_num [calculate_outcome, ouResultOf, ouResultName, hov]
    rw [if_neg (by decide : ¬("over" : String) = "under"),
      if_neg (by decide : ¬OUResult.under = OUResult.push)]

/-- C2 counterexample: an NCAA overtime snapshot with 3:00 on the clock
(period 3) yields minutesElapsed 37, not the claimed 42. -/
theorem C2_overtime_counterexample :
    minutesElapsed SportMode.ncaa (totalTimeRemaining SportMode.ncaa 3 3 0) = 37 ∧
    ¬ minutesElapsed SportMode.ncaa (totalTimeRemaining SportMode.ncaa 3 3 0) = 42 := by
  constructor <;>
    norm_num [minutesElapsed, totalTimeRemaining, totalGameMinutes, clockRemaining]

/-- C2 (amended): minutes elapsed is totalGameMinutes minus the period-aware
minutes remaining with no overtime extension of the baseline, so
minutesRemaining + minutesElapsed = totalGameMinutes for every snapshot,
overtime included; in particular the NCAA overtime snapshot with 3:00 left
yields minutesElapsed 37. -/
theorem C2_minutes_elapsed_amended :
    (∀ (mode : SportMode) (period m s : ℕ),
      totalTimeRemaining mode period m s +
        minutesElapsed mode (totalTimeRemaining mode period m s) =
        totalGameMinutes mode) ∧
    minutesElapsed SportMode.ncaa (totalTimeRemaining SportMode.ncaa 3 3 0) = 37 := by
  refine ⟨fun mode period m s => ?_,
    by norm_num [minutesElapsed, totalTimeRemaining, totalGameMinutes, clockRemaining]⟩
  simp only [minutesElapsed]
  ring

/-- C3 counterexample: a recorded under poll whose required_ppm equals the
candidate threshold counts as a hypothetical trigger in the analyzer, while
the strict side-specific half of Rule 1 does not count it. -/
theorem C3_equality_counterexample :
    analyzerWouldTrigger "under" 3 3 = true ∧ specRule1Retro "under" 3 3 = false := by
  constructor
  · unfold analyzerWouldTrigger
    rw [if_pos ⟨rfl, le_refl (3 : ℚ)⟩]
  · unfold specRule1Retro
    rw [if_neg fun h => absurd h.2 (lt_irrefl (3 : ℚ)),
      if_neg fun h => absurd h.1 (by decide)]

/-- C3 (amended): the analyzer's retroactive test agrees with the strict
side-specific half of Rule 1 at every record whose required_ppm differs from
the candidate threshold, but its comparisons are non-strict, so a record with
required_ppm exactly equal to the threshold counts for its recorded side
(either side), not for neither. -/
theorem C3_retro_trigger_amended :
    (∀ (betType : String) (r T : ℚ), r ≠ T →
      analyzerWouldTrigger betType r T = specRule1Retro betType r T) ∧
    (∀ T : ℚ, analyzerWouldTrigger "under" T T = true ∧
      analyzerWouldTrigger "over" T T = true) := by
  constructor
  · intro betType r T hne
    have h1 : T ≤ r ↔ T < r :=
      ⟨fun h => lt_of_le_of_ne h (Ne.symm hne), le_of_lt⟩
    have h2 : r ≤ T ↔ r < T := ⟨fun h => lt_of_le_of_ne h hne, le_of_lt⟩
    simp only [analyzerWouldTrigger, specRule1Retro, ge_iff_le, h1, h2, gt_iff_lt]
  · intro T
    constructor
    · unfold analyzerWouldTrigger
      rw [if_pos ⟨by decide, le_refl T⟩]
    · unfold analyzerWouldTrigger
      rw [if_neg fun h => absurd h.1 (by decide), if_pos ⟨by decide, le_refl T⟩]

/-- C3 witness: the amended agreement applied away from the threshold. -/
theorem C3_retro_trigger_amended_witness :
    (4 : ℚ) ≠ 3 ∧ analyzerWouldTrigger "under" 4 3 = specRule1Retro "under" 4 3 :=
  ⟨by norm_num, C3_retro_trigger_amended.1 "under" 4 3 (by norm_num)⟩

/-- C4: Rule 1 uses strict inequalities: side under with triggered exactly
when required PPM strictly exceeds the under threshold, otherwise side over
with triggered exactly when required PPM is strictly below the over
threshold; when the two thresholds are equal a required PPM exactly at the
threshold triggers neither branch, in particular at the default 3.0. -/
theorem C4_rule1_strict :
    (∀ thresholdUnder thresholdOver r : ℚ,
      ((rule1 thresholdUnder thresholdOver r).betType = some Side.under ∧
        (rule1 thresholdUnder thresholdOver r).triggered = true) ↔ r > thresholdUnder) ∧
    (∀ thresholdUnder thresholdOver r : ℚ, ¬ r > thresholdUnder →
      (((rule1 thresholdUnder thresholdOver r).betType = some Side.over ∧
        (rule1 thresholdUnder thresholdOver r).triggered = true) ↔ r < thresholdOver)) ∧
    (∀ t : ℚ, rule1 t t t = ⟨none, false, []⟩) ∧
    rule1 PPM_THRESHOLD_UNDER PPM_THRESHOLD_OVER 3 = ⟨none, false, []⟩ := by
  refine ⟨?_, ?_, ?_,
    by norm_num [rule1, PPM_THRESHOLD_UNDER, PPM_THRESHOLD_OVER]⟩
  · intro tU tO r
    unfold rule1
    split_ifs with h1 h2 <;> simp [h1]
  · intro tU tO r h
    unfold rule1
    rw [if_neg h]
    split_ifs with h2 <;> simp [h2]
  · intro t
    unfold rule1
    rw [if_neg (lt_irrefl t), if_neg (lt_irrefl t)]

/-- C4 witness: the otherwise-branch equivalence at required PPM 2 against
thresholds 3/3. -/
theorem C4_rule1_strict_witness :
    ¬ (2 : ℚ) > 3 ∧
    (((rule1 3 3 2).betType = some Side.over ∧ (rule1 3 3 2).triggered = true) ↔
      (2 : ℚ) < 3) :=
  ⟨by norm_num, C4_rule1_strict.2.1 3 3 2 (by norm_num)⟩

/-- C5: Rule 2 fires on a pace mismatch even when Rule 1 did not, filling the
side from the sign of the PPM difference when Rule 1 left it unset, and the
reasons list has exactly one entry per rule that fired, hence at most two. -/
theorem C5_rule2_pace_mismatch :
    (∀ tU tO tD r c : ℚ, |c - r| > tD →
      (evaluateTrigger tU tO tD r c).triggered = true) ∧
    (∀ tU tO tD r c : ℚ, (rule1 tU tO r).betType = none → |c - r| > tD →
      (evaluateTrigger tU tO tD r c).betType =
        some (if c - r > 0 then Side.over else Side.under)) ∧
    (∀ tU tO tD r c : ℚ,
      (evaluateTrigger tU tO tD r c).reasons.length =
        (if (rule1 tU tO r).triggered then 1 else 0) +
        (if |c - r| > tD then 1 else 0)) ∧
    (∀ tU tO tD r c : ℚ, (evaluateTrigger tU tO tD r c).reasons.length ≤ 2) := by
  refine ⟨?_, ?_, ?_, ?_⟩
  · intro tU tO tD r c h
    unfold evaluateTrigger rule2
    simp [h]
  · intro tU tO tD r c hside h
    unfold evaluateTrigger rule2
    simp [h, hside]
    split_ifs <;> rfl
  · intro tU tO tD r c
    by_cases h1 : r > tU <;> by_cases h2 : r < tO <;> by_cases h3 : |c - r| > tD <;>
      simp [evaluateTrigger, rule2, rule1, h1, h2, h3]
  · intro tU tO tD r c
    by_cases h1 : r > tU <;> by_cases h2 : r < tO <;> by_cases h3 : |c - r| > tD <;>
      simp [evaluateTrigger, rule2, rule1, h1, h2, h3]

/-- C5 witness: the spec scenario (required 6.6, current 112/30) fires
Rule 2 at the default 0.5 difference threshold. -/
theorem C5_rule2_pace_mismatch_witness :
    |(56/15 : ℚ) - 33/5| > 1/2 ∧
    (evaluateTrigger 3 3 (1/2) (33/5) (56/15)).triggered = true := by
  have habs : |(56/15 : ℚ) - 33/5| > 1/2 := by
    have h : (56/15 : ℚ) - 33/5 = -(43/15) := by norm_num
    rw [h, abs_neg, abs_of_pos (by norm_num : (0 : ℚ) < 43/15)]
    norm_num
  exact ⟨habs, C5_rule2_pace_mismatch.1 3 3 (1/2) (33/5) (56/15) habs⟩

/-- C6 counterexample: the monitor end-of-game handler classifies a game with
a zero line as over (producing a result record) and errs on a missing line,
so the claim does not hold of that resolver. -/
theorem C6_zero_line_counterexample :
    monitorHandleGameEnd (some 0) 150 false 1 =
      Except.ok (OUResult.over, Outcome.na, 0) ∧
    monitorHandleGameEnd none 150 false 1 = Except.error () := by
  constructor <;> rfl

/-- C6 (amended): the backfill resolver calculate_outcome returns the
indeterminate none (no classification, no record, no exception) whenever the
stored line is null or zero, for every input; the monitor end-of-game handler
has no such guard and classifies a zero line by plain comparison. -/
theorem C6_indeterminate_line_amended :
    (∀ (finalData : Option (ℚ × ℚ)) (triggered : Bool) (betType : String) (u : ℚ),
      calculate_outcome finalData none triggered betType u = none ∧
      calculate_outcome finalData (some 0) triggered betType u = none) ∧
    monitorHandleGameEnd (some 0) 150 false 1 =
      Except.ok (OUResult.over, Outcome.na, 0) := by
  constructor
  · rintro (_ | ⟨hs, aw⟩) triggered betType u
    · exact ⟨rfl, rfl⟩
    · exact ⟨rfl, rfl⟩
  · rfl

/-- C7: when either team's metrics dictionary is missing or empty, the scorer
returns confidence 0, unit recommendation 0 and the missing-data breakdown
without evaluating any factor, as a value rather than an exception. -/
theorem C7_missing_metrics_degraded :
    ∀ (w : Weights) (hm am : Option TeamMetrics) (rp ct ol : ℚ) (bt : Option Side)
      (cp : ℚ) (hf af : Option ℤ) (hl al : Option LiveStats),
      hm = none ∨ am = none →
      calculate_confidence w hm am rp ct ol bt cp hf af hl al =
        ⟨0, 0, Breakdown.missing "Missing team data"⟩ := by
  intro w hm am rp ct ol bt cp hf af hl al h
  rcases h with h | h
  · subst h; cases am <;> rfl
  · subst h; cases hm <;> rfl

/-- C7 witness: missing home metrics at the spec scenario inputs. -/
theorem C7_missing_metrics_degraded_witness :
    ((none : Option TeamMetrics) = none ∨ (some {} : Option TeamMetrics) = none) ∧
    calculate_confidence CONFIDENCE_WEIGHTS none (some {}) (33/5) 112 145
        (some Side.under) (56/15) none none none none =
      ⟨0, 0, Breakdown.missing "Missing team data"⟩ :=
  ⟨Or.inl rfl,
    C7_missing_metrics_degraded CONFIDENCE_WEIGHTS none (some {}) (33/5) 112 145
      (some Side.under) (56/15) none none none none (Or.inl rfl)⟩

/-- C8: the output confidence is clamped to [0, 100] for every input; the
default bands map confidence 0, 40, 41, 60, 61, 75, 76, 85, 86, 100 to units
0, 0, 0.5, 0.5, 1, 1, 2, 2, 3, 3; and any confidence strictly between 40 and
41 falls outside every band and maps to 0 units. -/
theorem C8_clamp_and_unit_bands :
    (∀ (w : Weights) (hm am : Option TeamMetrics) (rp ct ol : ℚ) (bt : Option Side)
      (cp : ℚ) (hf af : Option ℤ) (hl al : Option LiveStats),
      0 ≤ (calculate_confidence w hm am rp ct ol bt cp hf af hl al).confidence ∧
      (calculate_confidence w hm am rp ct ol bt cp hf af hl al).confidence ≤ 100) ∧
    (_get_unit_recommendation 0 = 0 ∧ _get_unit_recommendation 40 = 0 ∧
     _get_unit_recommendation 41 = 1/2 ∧ _get_unit_recommendation 60 = 1/2 ∧
     _get_unit_recommendation 61 = 1 ∧ _get_unit_recommendation 75 = 1 ∧
     _get_unit_recommendation 76 = 2 ∧ _get_unit_recommendation 85 = 2 ∧
     _get_unit_recommendation 86 = 3 ∧ _get_unit_recommendation 100 = 3) ∧
    (∀ confidence : ℚ, 40 < confidence → confidence < 41 →
      _get_unit_recommendation confidence = 0) := by
  refine ⟨?_,
    by norm_num [_get_unit_recommendation, UNIT_SIZES_no_bet, UNIT_SIZES_low,
      UNIT_SIZES_medium, UNIT_SIZES_high, UNIT_SIZES_max], ?_⟩
  · intro w hm am rp ct ol bt cp hf af hl al
    cases hm with
    | none => cases am <;> exact ⟨le_refl 0, (by norm_num : (0 : ℚ) ≤ 100)⟩
    | some home =>
      cases am with
      | none => exact ⟨le_refl 0, (by norm_num : (0 : ℚ) ≤ 100)⟩
      | some away => exact clamp_mem _
  · intro confidence hgt hlt
    unfold _get_unit_recommendation UNIT_SIZES_no_bet UNIT_SIZES_low
      UNIT_SIZES_medium UNIT_SIZES_high UNIT_SIZES_max
    dsimp only
    split_ifs with h1 h2 h3 h4 h5
    · rfl
    · exfalso; linarith [h2.1]
    · exfalso; linarith [h3.1]
    · exfalso; linarith [h4.1]
    · exfalso; linarith [h5.1]
    · rfl

/-- C8 witness: the gap value 40.5 maps to 0 units. -/
theorem C8_clamp_and_unit_bands_witness :
    (40 : ℚ) < 81/2 ∧ (81/2 : ℚ) < 41 ∧ _get_unit_recommendation (81/2) = 0 :=
  ⟨by norm_num, by norm_num,
    C8_clamp_and_unit_bands.2.2 (81/2) (by norm_num) (by norm_num)⟩

/-- C9: both pace divisions are guarded: required PPM is 0 whenever minutes
remaining is nonpositive, current PPM is 0 whenever minutes elapsed is
nonpositive, and a period-0 snapshot yields current PPM 0 for either sport. -/
theorem C9_division_guards :
    (∀ line total rem : ℚ, rem ≤ 0 → requiredPPM line total rem = 0) ∧
    (∀ total elapsed : ℚ, elapsed ≤ 0 → currentPPM total elapsed = 0) ∧
    (∀ (mode : SportMode) (total : ℚ) (m s : ℕ),
      currentPPM total (minutesElapsed mode (totalTimeRemaining mode 0 m s)) = 0) := by
  refine ⟨?_, ?_, ?_⟩
  · intro line total rem h
    unfold requiredPPM
    rw [if_neg (not_lt.mpr h)]
  · intro total elapsed h
    unfold currentPPM
    rw [if_neg (not_lt.mpr h)]
  · intro mode total m s
    cases mode <;>
      norm_num [currentPPM, minutesElapsed, totalTimeRemaining, totalGameMinutes]

/-- C9 witness: zero remaining and zero elapsed both give PPM 0. -/
theorem C9_division_guards_witness :
    (0 : ℚ) ≤ 0 ∧ requiredPPM 145 112 0 = 0 ∧ currentPPM 112 0 = 0 :=
  ⟨le_refl 0, C9_division_guards.1 145 112 0 (le_refl 0),
    C9_division_guards.2.1 112 0 (le_refl 0)⟩

/-- The pace factor as the sum of the two per-team classified bonuses. -/
theorem evaluate_pace_eq (w : Weights) (home away : TeamMetrics) :
    _evaluate_pace w home away =
      (if getPace home < w.slow_pace_threshold then w.slow_pace_bonus
       else if getPace home > w.fast_pace_threshold then w.fast_pace_penalty
       else w.medium_pace_bonus) +
      (if getPace away < w.slow_pace_threshold then w.slow_pace_bonus
       else if getPace away > w.fast_pace_threshold then w.fast_pace_penalty
       else w.medium_pace_bonus) := rfl

/-- C10: raising one team's pace from at-or-below the fast-pace threshold to
strictly above it strictly decreases the pace factor's signed contribution
(pace score times the polarity multiplier) for an under bet and strictly
increases it for an over bet, under the default weights. -/
theorem C10_pace_polarity_flip :
    ∀ (home home2 away : TeamMetrics),
      getPace home ≤ CONFIDENCE_WEIGHTS.fast_pace_threshold →
      getPace home2 > CONFIDENCE_WEIGHTS.fast_pace_threshold →
      (_evaluate_pace CONFIDENCE_WEIGHTS home2 away * scoreMultiplier (some Side.under) <
        _evaluate_pace CONFIDENCE_WEIGHTS home away * scoreMultiplier (some Side.under)) ∧
      (_evaluate_pace CONFIDENCE_WEIGHTS home away * scoreMultiplier (some Side.over) <
        _evaluate_pace CONFIDENCE_WEIGHTS home2 away * scoreMultiplier (some Side.over)) := by
  intro home home2 away h1 h2
  have hslow : CONFIDENCE_WEIGHTS.slow_pace_threshold = 67 := rfl
  have hfast : CONFIDENCE_WEIGHTS.fast_pace_threshold = 72 := rfl
  rw [hfast] at h1 h2
  have hmu : scoreMultiplier (some Side.under) = 1 := rfl
  have hmo : scoreMultiplier (some Side.over) = -1 := rfl
  have hb1 : CONFIDENCE_WEIGHTS.slow_pace_bonus = 7 := rfl
  have hb2 : CONFIDENCE_WEIGHTS.medium_pace_bonus = 3 := rfl
  have hb3 : CONFIDENCE_WEIGHTS.fast_pace_penalty = -6 := rfl
  simp only [evaluate_pace_eq, hmu, hmo, hslow, hfast, hb1, hb2, hb3]
  rw [if_neg (not_lt.mpr (by linarith : (67 : ℚ) ≤ getPace home2)), if_pos h2]
  by_cases hp : getPace home < 67
  · rw [if_pos hp]
    constructor <;> linarith
  · rw [if_neg hp, if_neg (not_lt.mpr h1)]
    constructor <;> linarith

/-- C10 witness: pace 65 versus pace 80 against a medium-pace opponent. -/
theorem C10_pace_polarity_flip_witness :
    getPace { pace := some 65 } ≤ CONFIDENCE_WEIGHTS.fast_pace_threshold ∧
    getPace { pace := some 80 } > CONFIDENCE_WEIGHTS.fast_pace_threshold ∧
    ((_evaluate_pace CONFIDENCE_WEIGHTS { pace := some 80 } { pace := some 70 } *
        scoreMultiplier (some Side.under) <
      _evaluate_pace CONFIDENCE_WEIGHTS { pace := some 65 } { pace := some 70 } *
        scoreMultiplier (some Side.under)) ∧
     (_evaluate_pace CONFIDENCE_WEIGHTS { pace := some 65 } { pace := some 70 } *
        scoreMultiplier (some Side.over) <
      _evaluate_pace CONFIDENCE_WEIGHTS { pace := some 80 } { pace := some 70 } *
        scoreMultiplier (some Side.over))) :=
  ⟨by norm_num [getPace, CONFIDENCE_WEIGHTS],
    by norm_num [getPace, CONFIDENCE_WEIGHTS],
    C10_pace_polarity_flip { pace := some 65 } { pace := some 80 } { pace := some 70 }
      (by norm_num [getPace, CONFIDENCE_WEIGHTS])
      (by norm_num [getPace, CONFIDENCE_WEIGHTS])⟩

end Testsite
